import Mathlib

/-!
Shallow embedding of the garmin-bodycomp-telegram-bot repository
(`garminbot.py`, `garminconnectapi.py`, `llmfeedback.py`).

Python floats are modelled as exact rationals (the claims under scrutiny
only exercise short decimal literals, far away from representation or
rounding-tie edge cases of IEEE 754), Python `None`/missing dict keys as
`Option`/`Bool` fields, raised `ValueError`s as `Except String`, and the
opaque network-facing collaborators (`_run_garmin_script` internals,
Garmin SDK calls, the LLM) as explicit environment parameters.
-/

deriving instance DecidableEq for Except

/- Batteries marks the `Rat` arithmetic operations `@[irreducible]`, which
blocks `decide` from evaluating concrete rational computations; restore
default reducibility for this development (proof terms still go through the
kernel unchanged). -/
attribute [local semireducible] Rat.mul Rat.inv Rat.add Rat.sub Rat.ofScientific

namespace GarminBot

/-! ### String utilities, kernel-computable models of the Python string
operations the bot uses (`str.strip`, `str.splitlines`, `str.split`). -/

/-- Python `str.strip()` (whitespace at both ends). -/
def trimChars (l : List Char) : List Char :=
  ((l.dropWhile Char.isWhitespace).reverse.dropWhile Char.isWhitespace).reverse

/-- Python `str.strip()` on a `String`. -/
def pyStrip (s : String) : String := .mk (trimChars s.toList)

/-- Splits a char list at every occurrence of `sep` (Python `str.split(sep)`
for a one-char separator; used for `splitlines` and `split("#")`). -/
def splitOnChar (sep : Char) : List Char → List (List Char)
  | [] => [[]]
  | c :: rest =>
      let r := splitOnChar sep rest
      if c = sep then [] :: r
      else match r with
        | [] => [[c]]
        | h :: t => (c :: h) :: t

/-- Python `str.splitlines()`.  CPython recognises several line boundaries;
the bot only ever sees LF, which is what is modelled.  (On a string with no
trailing newline — the bot always strips first — the semantics coincide.) -/
def splitlines (s : String) : List String :=
  if s = "" then [] else (splitOnChar (Char.ofNat 10) s.toList).map String.mk

/-- Everything before the first occurrence of `sep` (Python
`s.split(sep, 1)[0]`). -/
def beforeChar (sep : Char) : List Char → List Char
  | [] => []
  | c :: rest => if c = sep then [] else c :: beforeChar sep rest

/-! ### Numeric parsing: models of Python `float(s)` and `int(s)`

`float`/`int` strip surrounding whitespace and accept an optional sign.
The model covers plain decimal literals (the bot's input format); exotic
forms accepted by CPython (`inf`, `nan`, exponents, underscores) are out
of scope and parse to `none`. -/

def natFromDigits (l : List Char) : ℕ :=
  l.foldl (fun a c => a * 10 + (c.toNat - 48)) 0

def parseUnsignedFloat (l : List Char) : Option ℚ :=
  let intPart := l.takeWhile Char.isDigit
  let rest := l.dropWhile Char.isDigit
  match rest with
  | [] => if intPart.isEmpty then none else some (natFromDigits intPart)
  | '.' :: frac =>
      if frac.all Char.isDigit && !(intPart.isEmpty && frac.isEmpty) then
        some ((natFromDigits intPart : ℚ) + (natFromDigits frac : ℚ) / (10 ^ frac.length))
      else none
  | _ => none

def parseFloat (s : String) : Option ℚ :=
  match trimChars s.toList with
  | '+' :: rest => parseUnsignedFloat rest
  | '-' :: rest => (parseUnsignedFloat rest).map Neg.neg
  | t => parseUnsignedFloat t

def parseInt (s : String) : Option ℤ :=
  let core (l : List Char) : Option ℤ :=
    if !l.isEmpty && l.all Char.isDigit then some (natFromDigits l : ℤ) else none
  match trimChars s.toList with
  | '+' :: rest => core rest
  | '-' :: rest => (core rest).map Neg.neg
  | t => core t

/-- Model of Python `round(x, 2)` over exact rationals.  CPython uses
round-half-to-even on the binary float; at non-tie points (all inputs the
claims exercise) this agrees with rounding `100·x` to the nearest integer. -/
def pyRound2 (q : ℚ) : ℚ := (round (q * 100) : ℚ) / 100

/-! ### Measurement records and the two profile validators
(`garminbot.py` lines 67-139) -/

structure Measurement where
  weight : ℚ
  bmi : ℚ
  percent_fat : ℚ
  percent_muscle : ℚ
  visceral_fat_rating : ℤ
  muscle_mass : ℚ
  percent_hydration : Option ℚ
  bone_mass : Option ℚ
deriving Repr, DecidableEq

/-- `validate_omron_profile` (garminbot.py 67-95): 5 values
(weight, bmi, percent_fat, percent_muscle, visceral). -/
def validate_omron_profile (lines : List String) : Except String Measurement :=
  if lines.length < 5 then
    .error "Expected 5 lines/values (weight, bmi, percent_fat, percent_muscle, visceral)."
  else
    match parseFloat (lines.getD 0 ""), parseFloat (lines.getD 1 ""),
          parseFloat (lines.getD 2 ""), parseFloat (lines.getD 3 ""),
          parseInt (lines.getD 4 "") with
    | some w, some bmiV, some pf, some pm, some vis =>
        if pyRound2 w ≤ 1 then .error "Weight must be > 1 kg and positive."
        else
          .ok { weight := pyRound2 w, bmi := bmiV, percent_fat := pf, percent_muscle := pm,
                visceral_fat_rating := vis,
                muscle_mass := pyRound2 (pyRound2 w * (pm / 100)),
                percent_hydration := none, bone_mass := none }
    | _, _, _, _, _ => .error "could not convert string to float"

/-- `validate_mi_scale_profile` (garminbot.py 97-127): 7 values
(weight, bmi, fat, water, visceral, bone mass, muscle mass in kg). -/
def validate_mi_scale_profile (lines : List String) : Except String Measurement :=
  if lines.length < 7 then
    .error "Se esperan 7 valores, uno por linea."
  else
    match parseFloat (lines.getD 0 ""), parseFloat (lines.getD 1 ""),
          parseFloat (lines.getD 2 ""), parseFloat (lines.getD 3 ""),
          parseInt (lines.getD 4 ""), parseFloat (lines.getD 5 ""),
          parseFloat (lines.getD 6 "") with
    | some w, some bmiV, some pf, some hyd, some vis, some bone, some mm =>
        if pyRound2 w ≤ 1 then .error "El peso debe ser > 1 kg y positivo."
        else
          .ok { weight := pyRound2 w, bmi := bmiV, percent_fat := pf,
                percent_muscle :=
                  if pyRound2 w ≠ 0 then (pyRound2 mm / pyRound2 w) * 100 else 0,
                visceral_fat_rating := vis,
                muscle_mass := pyRound2 mm,
                percent_hydration := some hyd, bone_mass := some (pyRound2 bone) }
    | _, _, _, _, _, _, _ => .error "could not convert string to float"

/-- Whether a validator produced a measurement record. -/
def exceptOk : Except String Measurement → Bool
  | .ok _ => true
  | .error _ => false

/-- `_strip_comment_and_parse_value` (garminbot.py 58-61):
`line.split("#", 1)[0].strip()`. -/
def _strip_comment_and_parse_value (line : String) : String :=
  .mk (trimChars (beforeChar '#' line.toList))

/-- Bot configuration: `ALLOWED_IDS` and the `USER_PROFILES` map
(garminbot.py 18-43). -/
structure BotConfig where
  allowedIds : List ℤ
  userProfiles : List (ℤ × String)
deriving Repr

/-- `get_user_profile_key` (garminbot.py 63-65), with
`DEFAULT_PROFILE = "OMRON"` as fallback. -/
def get_user_profile_key (cfg : BotConfig) (userId : ℤ) : String :=
  (cfg.userProfiles.lookup userId).getD "OMRON"

/-- `_validate_and_cast_dispatch` (garminbot.py 130-139). -/
def _validate_and_cast_dispatch (cfg : BotConfig) (userId : ℤ) (lines : List String) :
    Except String Measurement :=
  if get_user_profile_key cfg userId = "OMRON" then validate_omron_profile lines
  else if get_user_profile_key cfg userId = "MI_SCALE" then validate_mi_scale_profile lines
  else .error ("Unknown profile key: " ++ get_user_profile_key cfg userId)

/-! ### Per-user conversation state (`context.user_data`)

The Python code stores flags `STATE_EXPECTING_CREDENTIALS` /
`STATE_EXPECTING_MFA` and keys `email` / `password` / `body_data` in a
per-user dict; a missing key is the `false` / `none` value here. -/

structure UserData where
  expectingCredentials : Bool := false
  expectingMfa : Bool := false
  email : Option String := none
  password : Option String := none
  bodyData : Option Measurement := none
deriving Repr, DecidableEq

/-- `phase != idle` in the spec's vocabulary. -/
def phaseNonIdle (ud : UserData) : Prop :=
  ud.expectingMfa = true ∨ ud.expectingCredentials = true

instance (ud : UserData) : Decidable (phaseNonIdle ud) := by
  unfold phaseNonIdle; infer_instance

/-- The spec's invariant "`pending_measurement` is non-empty whenever
`phase != idle`". -/
def measurementPresent (ud : UserData) : Prop :=
  phaseNonIdle ud → ud.bodyData.isSome = true

/-- One call to `_run_garmin_script` (garminbot.py 144): the arguments the
state machine hands to the submission backend. -/
structure BackendCall where
  userId : ℤ
  data : Option Measurement
  email : Option String
  password : Option String
  mfaCode : Option String
deriving Repr, DecidableEq

/-- The backend (`_run_garmin_script`) is opaque network-facing code; it is
modelled as an arbitrary function from the call arguments to
`(exit_code, stdout, stderr)`. -/
def Backend : Type := BackendCall → Int × Option String × Option String

/-- Result of one `process_message` invocation: the new per-user state, the
reply texts sent (in order), and the backend call made, if any. -/
structure StepResult where
  state : UserData
  replies : List String
  call : Option BackendCall
deriving Repr

/-! ### Reply texts (garminbot.py; emojis and markdown decoration elided) -/

def notAuthorizedMsg : String := "Sorry, you are not authorized to use this bot."
def noTextMsg : String := "No text found in message."
def mfaSubmittingMsg : String := "Submitting MFA code and body data..."
def credFormatErrorMsg : String :=
  "Input error: Please send your email on the first line and password on the second line."
def credAttemptMsg : String := "Attempting login with credentials..."
def loginSuccessMsg : String := "Login successful! Finalizing data submission..."
def loginAcceptedMsg : String := "Login credentials accepted. Proceeding to MFA check."
def dataParsedMsg (profileKey : String) : String :=
  "Data parsed successfully for profile " ++ profileKey ++
    ". Attempting token login for submission..."
def credPromptMsg : String :=
  "Garmin Login Required: reply with your Garmin Email on line 1 and Garmin Password on line 2."
def mfaPromptMsg : String :=
  "Multi-Factor Authentication Required: reply with your one-time 6-digit code."
def mfaLimitMsg : String :=
  "MFA Limit Exceeded: too many MFA codes. Please wait 30 minutes before trying again."

/-- Finds the first occurrence of `pat` and returns the text before and
after it (Python `s.split(pat, 1)` when `pat` occurs). -/
def splitFirstSeq (pat : List Char) : List Char → Option (List Char × List Char)
  | [] => if pat.isEmpty then some ([], []) else none
  | c :: rest =>
      if pat.isPrefixOf (c :: rest) then some ([], (c :: rest).drop pat.length)
      else
        match splitFirstSeq pat rest with
        | none => none
        | some (a, b) => some (c :: a, b)

/-- Success reply construction (garminbot.py 317-326): the fixed success
text, plus a tip when the backend stdout carries an `LLM:` marker. -/
def successBaseMsg : String :=
  "SUCCESS! Body composition data submitted to Garmin Connect.\nGo check your stats now!\nconnect.garmin.com/modern/weight"

def buildSuccessReply (stdout : Option String) : String :=
  match stdout with
  | none => successBaseMsg
  | some s =>
      match splitFirstSeq "LLM:".toList s.toList with
      | none => successBaseMsg
      | some (_, rest) => successBaseMsg ++ "\n\nTip: " ++ pyStrip (.mk rest)

/-- Failure reply (garminbot.py 364-367):
`(stderr or stdout).strip() or "Unknown error occurred during submission."`. -/
def submissionFailedReply (code : Int) (stdout stderr : Option String) : String :=
  let raw :=
    match stderr with
    | some s => if s = "" then stdout.getD "" else s
    | none => stdout.getD ""
  "Submission Failed (Code: " ++ toString code ++ "): " ++
    (if pyStrip raw = "" then "Unknown error occurred during submission." else pyStrip raw)

/-- Exit-code routing (garminbot.py 313-370, the common tail of
`process_message`): `ud` is the per-user state after the branch-specific
mutations, `acc` the replies already sent by the branch. -/
def routeExit (ud : UserData) (code : Int) (stdout stderr : Option String)
    (acc : List String) (call : Option BackendCall) : StepResult :=
  if code = 0 then
    ⟨{ ud with bodyData := none }, acc ++ [buildSuccessReply stdout], call⟩
  else if code = 2 then
    ⟨{ ud with expectingCredentials := true }, acc ++ [credPromptMsg], call⟩
  else if code = 3 then
    ⟨{ ud with expectingMfa := true }, acc ++ [mfaPromptMsg], call⟩
  else if code = 4 then
    ⟨{ ud with expectingMfa := false, email := none, password := none, bodyData := none },
      acc ++ [mfaLimitMsg], call⟩
  else
    ⟨{ ud with bodyData := none, expectingMfa := false, expectingCredentials := false },
      acc ++ [submissionFailedReply code stdout stderr], call⟩

/-- `process_message` (garminbot.py 239-370): one inbound chat message. -/
def process_message (backend : Backend) (cfg : BotConfig) (userId : ℤ)
    (rawText : String) (ud : UserData) : StepResult :=
  if userId ∉ cfg.allowedIds then
    ⟨ud, [notAuthorizedMsg], none⟩
  else
    let text := pyStrip rawText
    if text = "" then ⟨ud, [noTextMsg], none⟩
    else
      if ud.expectingMfa then
        let call : BackendCall := ⟨userId, ud.bodyData, ud.email, ud.password, some text⟩
        let res := backend call
        routeExit { ud with expectingMfa := false, email := none, password := none }
          res.1 res.2.1 res.2.2 [mfaSubmittingMsg] (some call)
      else if ud.expectingCredentials then
        let lines := splitlines text
        if lines.length < 2 then ⟨ud, [credFormatErrorMsg], none⟩
        else
          let email := pyStrip (lines.getD 0 "")
          let password := pyStrip (lines.getD 1 "")
          let call : BackendCall := ⟨userId, ud.bodyData, some email, some password, none⟩
          let res := backend call
          routeExit
            { ud with email := some email, password := some password,
                      expectingCredentials := false }
            res.1 res.2.1 res.2.2
            ([credAttemptMsg] ++
              (if res.1 = 0 then [loginSuccessMsg]
               else if res.1 = 3 then [loginAcceptedMsg] else []))
            (some call)
      else
        let lines :=
          ((splitlines text).filter (fun l => pyStrip l ≠ "")).map
            _strip_comment_and_parse_value
        match _validate_and_cast_dispatch cfg userId lines with
        | .error e => ⟨ud, ["Input validation error: " ++ e], none⟩
        | .ok d =>
            let call : BackendCall := ⟨userId, some d, none, none, none⟩
            let res := backend call
            routeExit { ud with bodyData := some d }
              res.1 res.2.1 res.2.2
              [dataParsedMsg (get_user_profile_key cfg userId)] (some call)

/-! ### `garminconnectapi.init_api` (garminconnectapi.py 133-188)

The Garmin SDK calls are opaque; their outcomes are an environment
parameter.  `init_api` signals outcomes with `sys.exit(code)`, which
`init_api_inprocess` (191-212) maps back to the same codes; `InitResult`
captures both: an API instance (recording whether it was obtained through
`resume_login`) or an exit code. -/

def EXIT_SUCCESS : Int := 0
def EXIT_SUBMISSION_ERROR : Int := 1
def EXIT_TOKEN_FAILURE : Int := 2
def EXIT_MFA_REQUIRED : Int := 3
def EXIT_TOO_MANY_MFA : Int := 4

/-- Outcome of `garmin.login()` with credentials (garminconnectapi.py 152). -/
inductive CredLoginOutcome where
  | ok
  | needsMfa
  | authFailed
  | connFailed
deriving DecidableEq, Repr

/-- Outcome of `garmin.resume_login(..., mfa_code)` (garminconnectapi.py 161). -/
inductive ResumeOutcome where
  | ok
  | tooManyRequests
  | invalidCode
  | otherHttpError
  | garthFailure
deriving DecidableEq, Repr

/-- The remote-service behaviour `init_api` runs against. -/
structure GarminEnv where
  tokenLoginOk : Bool
  credLogin : CredLoginOutcome
  resume : String → ResumeOutcome

/-- Python truthiness of an optional string (`if not email`, `if not
mfa_code`): missing or empty is falsy. -/
def pyTruthy : Option String → Bool
  | none => false
  | some s => s ≠ ""

inductive InitResult where
  | api (viaMfaResume : Bool)
  | exit (code : Int)
deriving DecidableEq, Repr

def init_api (env : GarminEnv) (email password mfa_code : Option String) : InitResult :=
  if env.tokenLoginOk then .api false
  else if ¬ pyTruthy email ∨ ¬ pyTruthy password then .exit EXIT_TOKEN_FAILURE
  else
    match env.credLogin with
    | .authFailed => .exit EXIT_SUBMISSION_ERROR
    | .connFailed => .exit EXIT_SUBMISSION_ERROR
    | .ok => .api false
    | .needsMfa =>
        if ¬ pyTruthy mfa_code then .exit EXIT_MFA_REQUIRED
        else
          match env.resume (mfa_code.getD "") with
          | .ok => .api true
          | .tooManyRequests => .exit EXIT_TOO_MANY_MFA
          | .invalidCode => .exit EXIT_MFA_REQUIRED
          | .otherHttpError => .exit EXIT_SUBMISSION_ERROR
          | .garthFailure => .exit EXIT_MFA_REQUIRED

/-! ### AI feedback collaborator (`llmfeedback.get_feedback`, llmfeedback.py
161-179, and the LLM block of `_run_garmin_script`, garminbot.py 171-185) -/

/-- Environment for `get_feedback`: whether `GOOGLE_API_KEY` is set, what
`fetch_latest_body_composition` returned (`none` covers both "no data" and
an exception inside it, which it catches itself), and what
`generate_feedback_message` did (`.error` models an unexpected exception,
`.ok none` its own caught invocation failures and empty LLM replies). -/
structure LLMEnv where
  apiKeySet : Bool
  fetchedData : Option Unit
  generated : Except String (Option String)

def get_feedback (env : LLMEnv) : Option String :=
  if ¬ env.apiKeySet then none
  else
    match env.fetchedData with
    | none => none
    | some _ =>
        match env.generated with
        | .error _ => none
        | .ok fb => fb

/-- What the LLM block inside `_run_garmin_script` encountered after a
successful submission (garminbot.py 171-185). -/
inductive LlmStep where
  | helperFeedback (fb : Option String)
  | noHelper
  | raised (e : String)
deriving DecidableEq, Repr

/-- The value `_run_garmin_script` returns after
`add_body_composition_data_non_interactive` succeeded (garminbot.py
171-185): always exit code 0; stdout carries the `LLM:` marker only when a
non-empty feedback string was obtained; any LLM failure is demoted to a
debugging note in stderr. -/
def run_garmin_success_tail (llm : LlmStep) : Int × Option String × Option String :=
  match llm with
  | .helperFeedback fb =>
      if pyTruthy fb then (0, some ("Success: Data submitted. LLM: " ++ fb.getD ""), none)
      else (0, some "Success: Data submitted.", none)
  | .noHelper => (0, some "Success: Data submitted.", none)
  | .raised e => (0, some "Success: Data submitted.", some ("LLM call failed: " ++ e))

/-! ### Concrete sample data used by witnesses and counterexamples -/

/-- The spec's profile-A scenario input, line by line. -/
def omronSampleLines : List String := ["70.5", "24.1", "18.2", "40.3", "5"]

/-- What `validate_omron_profile` actually returns on the scenario input
(muscle mass 70.5 × 40.3 / 100 = 28.4115, rounded to 28.41). -/
def omronSample : Measurement :=
  { weight := 70.5, bmi := 24.1, percent_fat := 18.2, percent_muscle := 40.3,
    visceral_fat_rating := 5, muscle_mass := 28.41,
    percent_hydration := none, bone_mass := none }

/-- A well-formed 7-line MI_SCALE input. -/
def miScaleSampleLines : List String :=
  ["70.5", "24.1", "18.2", "55.0", "5", "3.2", "28.4"]

/-- `validate_mi_scale_profile`'s output on `miScaleSampleLines`. -/
def miScaleSample : Measurement :=
  { weight := 70.5, bmi := 24.1, percent_fat := 18.2,
    percent_muscle := 28.4 / 70.5 * 100,
    visceral_fat_rating := 5, muscle_mass := 28.4,
    percent_hydration := some 55, bone_mass := some 3.2 }

/-- A 7-line input whose weight line parses to 0.5 ≤ 1. -/
def lowWeightLines : List String := ["0.5", "1", "1", "1", "1", "1", "1"]

/-- A fresh `context.user_data` dict: no flags, no keys. -/
def initialUserData : UserData := {}

/-- The inductive invariant of the per-user state: the two phase flags are
never both set (the code always pops one before setting the other), and a
measurement is pending whenever some phase flag is set.  The first conjunct
is the strengthening needed for the induction; the second is the spec's
stated invariant. -/
def StateWF (ud : UserData) : Prop :=
  ¬(ud.expectingMfa = true ∧ ud.expectingCredentials = true) ∧ measurementPresent ud

/-- The backend call the MFA branch makes (garminbot.py 264-266). -/
def mfaCallOf (userId : ℤ) (ud : UserData) (rawText : String) : BackendCall :=
  ⟨userId, ud.bodyData, ud.email, ud.password, some (pyStrip rawText)⟩

/-- The backend call the credentials branch makes (garminbot.py 286-288):
email and password are the stripped first and second lines. -/
def credCallOf (userId : ℤ) (ud : UserData) (rawText : String) : BackendCall :=
  ⟨userId, ud.bodyData,
   some (pyStrip ((splitlines (pyStrip rawText)).getD 0 "")),
   some (pyStrip ((splitlines (pyStrip rawText)).getD 1 "")), none⟩

/-- A backend that reports success (exit code 0) on every call. -/
def backendStub : Backend := fun _ => (0, none, none)

/-- A backend that reports `mfa_required` (exit code 3) on every call — the
behaviour of `init_api` when `resume_login` rejects a mistyped code with an
HTTP 401/403. -/
def backendMfaAgain : Backend := fun _ => (3, none, none)

/-- A one-user configuration: user 1 allowed, default profile. -/
def cfgSample : BotConfig := { allowedIds := [1], userProfiles := [] }

/-- A state in the `awaiting_credentials` phase with a pending measurement. -/
def udCred : UserData := { expectingCredentials := true, bodyData := some omronSample }

/-- A state in the `awaiting_mfa_code` phase with stored credentials and a
pending measurement. -/
def udMfa : UserData :=
  { expectingMfa := true, email := some "user@mail.test", password := some "secret",
    bodyData := some omronSample }

end GarminBot

/-! ## Theorems -/

namespace GarminBot

/-- Python `round(·, 2)` cannot raise a value that is at most 1 above 1
(rounding to the nearest hundredth is monotone and fixes 1). -/
theorem pyRound2_le_one {q : ℚ} (h : q ≤ 1) : pyRound2 q ≤ 1 := by
  unfold pyRound2
  have h2 : round (q * 100) ≤ (100 : ℤ) := by
    have h100 : round ((100 : ℤ) : ℚ) = 100 := round_intCast 100
    have : round (q * 100) ≤ round ((100 : ℤ) : ℚ) := by
      rw [round_eq, round_eq]
      exact Int.floor_le_floor (by push_cast; linarith)
    omega
  rw [div_le_one (by norm_num : (0:ℚ) < 100)]
  exact_mod_cast h2

/-- C3, counterexample: on the five scenario lines "70.5", "24.1", "18.2",
"40.3", "5" the OMRON validator does not return the record claimed by the
spec — muscle_mass is not 28.43. -/
theorem omron_scenario_not_28_43 :
    validate_omron_profile omronSampleLines ≠
      .ok { omronSample with muscle_mass := 28.43 } := by decide

/-- C3, amended: on the scenario input the OMRON validator returns
weight 70.5, bmi 24.1, percent_fat 18.2, percent_muscle 40.3, visceral 5,
and muscle_mass 28.41 (= round(70.5 × 40.3 / 100, 2)). -/
theorem omron_scenario_value :
    validate_omron_profile omronSampleLines = .ok omronSample := by decide

/-- C5: every measurement record produced by the OMRON validator satisfies
muscle_mass = round(weight × percent_muscle / 100, 2), where weight and
percent_muscle are the validator's own output fields. -/
theorem omron_muscle_mass_derived (lines : List String) (m : Measurement)
    (h : validate_omron_profile lines = .ok m) :
    m.muscle_mass = pyRound2 (m.weight * m.percent_muscle / 100) := by
  unfold validate_omron_profile at h
  split at h
  · exact Except.noConfusion h
  split at h <;> try exact Except.noConfusion h
  split at h
  · exact Except.noConfusion h
  · cases h
    simp [mul_div_assoc]

/-- C5 witness: the derivation equation holds on the concrete profile-A
scenario output. -/
theorem omron_muscle_mass_derived_witness :
    omronSample.muscle_mass =
      pyRound2 (omronSample.weight * omronSample.percent_muscle / 100) :=
  omron_muscle_mass_derived omronSampleLines omronSample (by decide)

/-- C6: every measurement record produced by the MI_SCALE validator takes
muscle_mass verbatim from the 7th input line (rounded to 2 decimals, not
derived), and its percent_muscle is the derived display-only value
(muscle_mass / weight) × 100. -/
theorem mi_scale_muscle_mass_verbatim (lines : List String) (m : Measurement)
    (h : validate_mi_scale_profile lines = .ok m) :
    (parseFloat (lines.getD 6 "")).map pyRound2 = some m.muscle_mass ∧
    m.percent_muscle = m.muscle_mass / m.weight * 100 := by
  unfold validate_mi_scale_profile at h
  split at h
  · exact Except.noConfusion h
  split at h <;> try exact Except.noConfusion h
  split at h
  · exact Except.noConfusion h
  · rename_i hgt
    cases h
    refine ⟨by simp_all, ?_⟩
    rw [if_pos]
    intro h0
    exact hgt (by rw [h0]; norm_num)

/-- C6 witness: the verbatim-muscle-mass and derived-percentage equations
hold on a concrete 7-line MI_SCALE input. -/
theorem mi_scale_muscle_mass_verbatim_witness :
    (parseFloat (miScaleSampleLines.getD 6 "")).map pyRound2 =
        some miScaleSample.muscle_mass ∧
    miScaleSample.percent_muscle =
        miScaleSample.muscle_mass / miScaleSample.weight * 100 :=
  mi_scale_muscle_mass_verbatim miScaleSampleLines miScaleSample (by decide)

/-- C9: for both profiles, any input whose weight line parses to a value
at most 1 fails validation — no measurement record is produced, whatever
the other lines contain. -/
theorem weight_le_one_rejected (lines : List String) (v : ℚ)
    (hp : parseFloat (lines.getD 0 "") = some v) (hv : v ≤ 1) :
    exceptOk (validate_omron_profile lines) = false ∧
    exceptOk (validate_mi_scale_profile lines) = false := by
  have hr := pyRound2_le_one hv
  constructor
  · unfold validate_omron_profile
    split
    · rfl
    rw [hp]
    cases h1 : parseFloat (lines.getD 1 "") <;>
    cases h2 : parseFloat (lines.getD 2 "") <;>
    cases h3 : parseFloat (lines.getD 3 "") <;>
    cases h4 : parseInt (lines.getD 4 "") <;>
    simp [exceptOk, hr]
  · unfold validate_mi_scale_profile
    split
    · rfl
    rw [hp]
    cases h1 : parseFloat (lines.getD 1 "") <;>
    cases h2 : parseFloat (lines.getD 2 "") <;>
    cases h3 : parseFloat (lines.getD 3 "") <;>
    cases h4 : parseInt (lines.getD 4 "") <;>
    cases h5 : parseFloat (lines.getD 5 "") <;>
    cases h6 : parseFloat (lines.getD 6 "") <;>
    simp [exceptOk, hr]

/-- C9 witness: a concrete input with weight line "0.5" is rejected by
both validators. -/
theorem weight_le_one_rejected_witness :
    exceptOk (validate_omron_profile lowWeightLines) = false ∧
    exceptOk (validate_mi_scale_profile lowWeightLines) = false :=
  weight_le_one_rejected lowWeightLines (1/2) (by decide) (by norm_num)

end GarminBot

namespace GarminBot

/-! ### Helper lemmas about the exit-code routing -/

theorem routeExit_call (ud : UserData) (code : Int) (o e : Option String)
    (acc : List String) (call : Option BackendCall) :
    (routeExit ud code o e acc call).call = call := by
  unfold routeExit
  repeat' split
  all_goals rfl

theorem routeExit_state (ud : UserData) (code : Int) (o e : Option String)
    (acc : List String) (call : Option BackendCall) :
    (routeExit ud code o e acc call).state =
      if code = 0 then { ud with bodyData := none }
      else if code = 2 then { ud with expectingCredentials := true }
      else if code = 3 then { ud with expectingMfa := true }
      else if code = 4 then
        { ud with expectingMfa := false, email := none, password := none, bodyData := none }
      else { ud with bodyData := none, expectingMfa := false, expectingCredentials := false } := by
  unfold routeExit
  repeat' split
  all_goals rfl

/-- Whenever `process_message` makes a backend call, its result is the
exit-code routing of that call's backend result. -/
theorem process_message_routes (backend : Backend) (cfg : BotConfig) (uid : ℤ)
    (text : String) (ud : UserData) (c : BackendCall)
    (h : (process_message backend cfg uid text ud).call = some c) :
    ∃ ud' acc, process_message backend cfg uid text ud =
      routeExit ud' (backend c).1 (backend c).2.1 (backend c).2.2 acc (some c) := by
  simp only [process_message] at h ⊢
  repeat' split at h
  all_goals simp_all [routeExit_call]
  all_goals try exact ⟨_, _, rfl⟩
  all_goals split
  all_goals try exact ⟨_, _, rfl⟩
  all_goals omega

/-- C7: a user identifier outside the allow-list gets the fixed denial
reply and nothing else happens: the per-user state is returned unchanged
and no validation or backend call takes place, for every input text. -/
theorem unauthorized_no_mutation (backend : Backend) (cfg : BotConfig) (userId : ℤ)
    (text : String) (ud : UserData) (h : userId ∉ cfg.allowedIds) :
    process_message backend cfg userId text ud = ⟨ud, [notAuthorizedMsg], none⟩ := by
  unfold process_message
  rw [if_pos h]

/-- C7 witness: user 2 is not in the allow-list `[1]`; the handler replies
with the denial message and leaves the fresh state untouched. -/
theorem unauthorized_no_mutation_witness :
    process_message (fun _ => (0, none, none)) ⟨[1], []⟩ 2 "70.5" {} =
      ⟨{}, [notAuthorizedMsg], none⟩ :=
  unauthorized_no_mutation _ _ _ _ _ (by decide)

/-- C1, amended: in `awaiting_credentials`, a message of fewer than two
lines only re-prompts — state unchanged, no backend call.  But that is the
only wrong-shape guard: a message of two or MORE lines (three-line
included) is consumed as credentials (first two lines) and does trigger a
backend call, and in `awaiting_mfa_code` every non-empty message of any
line count is used as the MFA code and triggers a backend call. -/
theorem non_idle_wrong_shape_behaviour :
    (∀ (backend : Backend) (cfg : BotConfig) (uid : ℤ) (text : String) (ud : UserData),
      uid ∈ cfg.allowedIds → ud.expectingMfa = false → ud.expectingCredentials = true →
      pyStrip text ≠ "" → (splitlines (pyStrip text)).length < 2 →
      process_message backend cfg uid text ud = ⟨ud, [credFormatErrorMsg], none⟩) ∧
    (∀ (backend : Backend) (cfg : BotConfig) (uid : ℤ) (text : String) (ud : UserData),
      uid ∈ cfg.allowedIds → ud.expectingMfa = false → ud.expectingCredentials = true →
      pyStrip text ≠ "" → ¬((splitlines (pyStrip text)).length < 2) →
      (process_message backend cfg uid text ud).call = some (credCallOf uid ud text)) ∧
    (∀ (backend : Backend) (cfg : BotConfig) (uid : ℤ) (text : String) (ud : UserData),
      uid ∈ cfg.allowedIds → ud.expectingMfa = true →
      pyStrip text ≠ "" →
      (process_message backend cfg uid text ud).call = some (mfaCallOf uid ud text)) := by
  refine ⟨?_, ?_, ?_⟩
  · intro backend cfg uid text ud hmem hmfa hcred htext hlen
    simp [process_message, hmem, hmfa, hcred, htext, hlen]
  · intro backend cfg uid text ud hmem hmfa hcred htext hlen
    simp [process_message, hmem, hmfa, hcred, htext, hlen, routeExit_call, credCallOf]
  · intro backend cfg uid text ud hmem hmfa htext
    simp [process_message, hmem, hmfa, htext, routeExit_call, mfaCallOf]

/-- C1 counterexample: a THREE-line message in `awaiting_credentials` does
trigger a backend call (with the first two lines as email and password)
and does change the per-user state, contrary to the claim that it causes
no backend call and no state change. -/
theorem three_line_credentials_calls_backend :
    (process_message backendStub cfgSample 1 "a@b.c\npw\nextra" udCred).call =
      some ⟨1, some omronSample, some "a@b.c", some "pw", none⟩ ∧
    (process_message backendStub cfgSample 1 "a@b.c\npw\nextra" udCred).state ≠ udCred := by
  constructor
  · decide
  · decide

/-- C1 witness: a single-line message in `awaiting_credentials` only
re-prompts — state unchanged, no backend call. -/
theorem non_idle_wrong_shape_behaviour_witness :
    process_message backendStub cfgSample 1 "onlyoneline" udCred =
      ⟨udCred, [credFormatErrorMsg], none⟩ :=
  non_idle_wrong_shape_behaviour.1 backendStub cfgSample 1 "onlyoneline" udCred
    (by decide) rfl rfl (by decide) (by decide)

/-- C2, amended: stored credentials are cleared immediately after being
consumed to attempt an MFA resume (the MFA branch always leaves
email/password empty), and an MFA-limit failure (exit code 4) clears
email, password, and the pending measurement from any branch.  However,
when the credentials submission itself returns any other code — including
the terminal success (0) and hard-failure (1) codes — the entered email
and password REMAIN stored in the per-user state. -/
theorem credentials_clearing :
    (∀ (backend : Backend) (cfg : BotConfig) (uid : ℤ) (text : String) (ud : UserData),
      uid ∈ cfg.allowedIds → ud.expectingMfa = true → pyStrip text ≠ "" →
      (process_message backend cfg uid text ud).state.email = none ∧
      (process_message backend cfg uid text ud).state.password = none) ∧
    (∀ (backend : Backend) (cfg : BotConfig) (uid : ℤ) (text : String) (ud : UserData)
       (c : BackendCall),
      (process_message backend cfg uid text ud).call = some c → (backend c).1 = 4 →
      (process_message backend cfg uid text ud).state.email = none ∧
      (process_message backend cfg uid text ud).state.password = none ∧
      (process_message backend cfg uid text ud).state.bodyData = none) ∧
    (∀ (backend : Backend) (cfg : BotConfig) (uid : ℤ) (text : String) (ud : UserData),
      uid ∈ cfg.allowedIds → ud.expectingMfa = false → ud.expectingCredentials = true →
      pyStrip text ≠ "" → ¬((splitlines (pyStrip text)).length < 2) →
      (backend (credCallOf uid ud text)).1 ≠ 4 →
      (process_message backend cfg uid text ud).state.email =
        some (pyStrip ((splitlines (pyStrip text)).getD 0 "")) ∧
      (process_message backend cfg uid text ud).state.password =
        some (pyStrip ((splitlines (pyStrip text)).getD 1 ""))) := by
  refine ⟨?_, ?_, ?_⟩
  · intro backend cfg uid text ud hmem hmfa htext
    constructor <;>
    · simp only [process_message, hmem, hmfa, htext]
      simp [routeExit_state]
      repeat' split
      all_goals rfl
  · intro backend cfg uid text ud c hcall hcode
    obtain ⟨ud', acc, heq⟩ := process_message_routes backend cfg uid text ud c hcall
    rw [heq, hcode, routeExit_state]
    norm_num
  · intro backend cfg uid text ud hmem hmfa hcred htext hlen hcode
    simp [credCallOf] at hcode
    constructor <;>
    · simp only [process_message, hmem, hmfa, hcred, htext, hlen]
      simp [routeExit_state, hlen]
      repeat' split
      all_goals first | rfl | (exact absurd (by assumption) hcode)

/-- C2 counterexample: from `awaiting_credentials`, a two-line credentials
message whose submission succeeds (exit code 0, a terminal result) leaves
the entered email and password stored in the per-user state — the terminal
success reply does not clear them. -/
theorem credentials_kept_after_success :
    (process_message backendStub cfgSample 1 "a@b.c\npw" udCred).state =
      { expectingCredentials := false, expectingMfa := false,
        email := some "a@b.c", password := some "pw", bodyData := none } := by decide

/-- C2 witness: an MFA-branch step (here against an always-succeeding
backend) leaves no stored email or password. -/
theorem credentials_clearing_witness :
    (process_message backendStub cfgSample 1 "123456" udMfa).state.email = none ∧
    (process_message backendStub cfgSample 1 "123456" udMfa).state.password = none :=
  credentials_clearing.1 backendStub cfgSample 1 "123456" udMfa (by decide) rfl (by decide)

/-- C4: the fresh per-user state satisfies the invariant; every step of the
state machine preserves it (so a pending measurement is present whenever
the phase is not idle, along every run); and while the phase is non-idle
the pending measurement is unchanged by any step that makes no backend
call, and by any step whose backend result is one of the non-terminal
codes 2 (`token_invalid`) or 3 (`mfa_required`). -/
theorem pending_measurement_invariant :
    StateWF initialUserData ∧
    (∀ (backend : Backend) (cfg : BotConfig) (uid : ℤ) (text : String) (ud : UserData),
      StateWF ud → StateWF (process_message backend cfg uid text ud).state) ∧
    (∀ (backend : Backend) (cfg : BotConfig) (uid : ℤ) (text : String) (ud : UserData),
      phaseNonIdle ud → (process_message backend cfg uid text ud).call = none →
      (process_message backend cfg uid text ud).state.bodyData = ud.bodyData) ∧
    (∀ (backend : Backend) (cfg : BotConfig) (uid : ℤ) (text : String) (ud : UserData)
       (c : BackendCall),
      phaseNonIdle ud → (process_message backend cfg uid text ud).call = some c →
      ((backend c).1 = 2 ∨ (backend c).1 = 3) →
      (process_message backend cfg uid text ud).state.bodyData = ud.bodyData) := by
  refine ⟨?_, ?_, ?_, ?_⟩
  · simp [StateWF, initialUserData, measurementPresent, phaseNonIdle]
  · intro backend cfg uid text ud hwf
    simp only [process_message]
    repeat' split
    all_goals simp_all [routeExit_state, StateWF, measurementPresent, phaseNonIdle]
    all_goals repeat' split
    all_goals simp_all
  · intro backend cfg uid text ud hphase hcall
    simp only [process_message] at hcall ⊢
    repeat' split at hcall
    all_goals simp_all [routeExit_call, phaseNonIdle]
  · intro backend cfg uid text ud c hphase hcall hcode
    simp only [process_message] at hcall ⊢
    rcases hcode with h4 | h4 <;>
    · repeat' split at hcall
      all_goals simp_all [routeExit_call, routeExit_state, phaseNonIdle]
      all_goals rw [if_neg (by omega)]
      all_goals simp [routeExit_state]

/-- C4 witness: one concrete preservation step — the invariant holds after
an MFA-phase message against an always-succeeding backend, starting from a
state that satisfies it. -/
theorem pending_measurement_invariant_witness :
    StateWF (process_message backendStub cfgSample 1 "123456" udMfa).state :=
  pending_measurement_invariant.2.1 backendStub cfgSample 1 "123456" udMfa
    (by constructor <;> simp [measurementPresent, phaseNonIdle, udMfa])

/-- C8: after an `awaiting_mfa_code` step whose backend result is
`mfa_required` (code 3) again, the state re-enters `awaiting_mfa_code`
with email and password already cleared; the next non-empty message then
produces a backend call carrying `email = none` and `password = none`; and
`init_api` called without email and password, when the token login fails,
exits with `EXIT_TOKEN_FAILURE` — and can never return an API instance
through a successful MFA resume, whatever the environment. -/
theorem mfa_retry_loses_credentials :
    (∀ (backend : Backend) (cfg : BotConfig) (uid : ℤ) (text : String) (ud : UserData),
      uid ∈ cfg.allowedIds → ud.expectingMfa = true → pyStrip text ≠ "" →
      (backend (mfaCallOf uid ud text)).1 = 3 →
      (process_message backend cfg uid text ud).state.expectingMfa = true ∧
      (process_message backend cfg uid text ud).state.email = none ∧
      (process_message backend cfg uid text ud).state.password = none) ∧
    (∀ (backend : Backend) (cfg : BotConfig) (uid : ℤ) (text : String) (ud : UserData),
      uid ∈ cfg.allowedIds → ud.expectingMfa = true → ud.email = none → ud.password = none →
      pyStrip text ≠ "" →
      (process_message backend cfg uid text ud).call =
        some ⟨uid, ud.bodyData, none, none, some (pyStrip text)⟩) ∧
    (∀ (env : GarminEnv) (mfa : Option String),
      env.tokenLoginOk = false →
      init_api env none none mfa = .exit EXIT_TOKEN_FAILURE) ∧
    (∀ (env : GarminEnv) (mfa : Option String),
      init_api env none none mfa ≠ .api true) := by
  refine ⟨?_, ?_, ?_, ?_⟩
  · intro backend cfg uid text ud hmem hmfa htext hcode
    simp [mfaCallOf] at hcode
    refine ⟨?_, ?_, ?_⟩ <;>
    · simp only [process_message, hmem, hmfa, htext]
      simp [routeExit_state, hcode]
  · intro backend cfg uid text ud hmem hmfa hemail hpw htext
    simp only [process_message]
    simp [routeExit_call, hmem, hmfa, hemail, hpw, htext]
  · intro env mfa htok
    simp [init_api, htok, pyTruthy]
  · intro env mfa
    unfold init_api
    split
    · simp
    · simp [pyTruthy]

/-- C8 witness: a concrete `awaiting_mfa_code` state with stored
credentials, stepped against a backend answering `mfa_required` again,
re-enters the MFA phase with email and password gone. -/
theorem mfa_retry_loses_credentials_witness :
    (process_message backendMfaAgain cfgSample 1 "123456" udMfa).state.expectingMfa = true ∧
    (process_message backendMfaAgain cfgSample 1 "123456" udMfa).state.email = none ∧
    (process_message backendMfaAgain cfgSample 1 "123456" udMfa).state.password = none :=
  mfa_retry_loses_credentials.1 backendMfaAgain cfgSample 1 "123456" udMfa
    (by decide) rfl (by decide) rfl

/-- C10: after a successful submission the LLM block of
`_run_garmin_script` always returns exit code 0, whatever the AI-feedback
collaborator did; when the feedback step failed, raised, or produced
nothing, the user reply is exactly the plain success message (the tip is
merely omitted and no error text reaches the user); and `get_feedback`
itself returns nothing — rather than an error — when the API key is
missing, no data could be fetched, or generation raised. -/
theorem llm_failures_swallowed :
    (∀ llm : LlmStep, (run_garmin_success_tail llm).1 = 0) ∧
    (∀ fb : Option String, pyTruthy fb = false →
      buildSuccessReply (run_garmin_success_tail (.helperFeedback fb)).2.1 = successBaseMsg) ∧
    (∀ e : String,
      buildSuccessReply (run_garmin_success_tail (.raised e)).2.1 = successBaseMsg) ∧
    (buildSuccessReply (run_garmin_success_tail .noHelper).2.1 = successBaseMsg) ∧
    (∀ (env : LLMEnv) (msg : String),
      env.apiKeySet = false ∨ env.fetchedData = none ∨ env.generated = .error msg →
      get_feedback env = none) := by
  refine ⟨?_, ?_, ?_, ?_, ?_⟩
  · intro llm
    cases llm
    case helperFeedback fb =>
      simp only [run_garmin_success_tail]
      split <;> rfl
    case noHelper => rfl
    case raised e => rfl
  · intro fb hfb
    simp only [run_garmin_success_tail]
    rw [if_neg (by simp [hfb])]
    decide
  · intro e
    show buildSuccessReply (some "Success: Data submitted.") = successBaseMsg
    decide
  · decide
  · intro env msg h
    rcases h with h | h | h <;> simp [get_feedback, h] <;> (try split) <;> simp_all

/-- C10 witness: an LLM exception after a successful submission still
yields exit code 0 and the plain success reply, and `get_feedback` with no
API key yields nothing. -/
theorem llm_failures_swallowed_witness :
    (run_garmin_success_tail (.raised "quota exceeded")).1 = 0 ∧
    buildSuccessReply (run_garmin_success_tail (.raised "quota exceeded")).2.1 = successBaseMsg ∧
    get_feedback ⟨false, none, .ok none⟩ = none :=
  ⟨llm_failures_swallowed.1 _,
   llm_failures_swallowed.2.2.1 _,
   llm_failures_swallowed.2.2.2.2 ⟨false, none, .ok none⟩ "" (Or.inl rfl)⟩

end GarminBot
